import Mathlib

/-!
# Verification of the growthnity dashboard filter/cache core

Shallow embedding of the client-side filter-constraint resolver
(`DashboardComponent.recomputeFilterDropdowns`), the TTL/dedup request cache
(`CacheService.get`), the analytics batch pipeline
(`DashboardComponent.loadData`) and the cache-key serialization
(`DashboardService.buildCacheKey`) of the growthnity repository, together
with proofs and refutations of the specified properties.

TypeScript `number` ids and counters are modelled as `Int` (every id the
claims touch is an integer; no float arithmetic is involved), `null`/
`undefined` as `Option`/a dedicated constructor, and TS `Map` objects as
association lists with first-match lookup.
-/

namespace Growthnity

/-! ## Data model (src/.../core/models/dashboard.model.ts)

`DashboardFilters` fields of TS type `number | number[] | null` (resp.
`string | string[] | null`) are modelled by `FilterVal`: `nullv` for
`null`/`undefined`, `single v` for a scalar, `arr vs` for an array. -/

inductive FilterVal (α : Type) where
  | nullv : FilterVal α
  | single (v : α) : FilterVal α
  | arr (vs : List α) : FilterVal α
deriving DecidableEq, Repr

/-- TS `x != null && (!Array.isArray(x) || x.length > 0)` — the activity test
`recomputeFilterDropdowns` applies to each multi-valued filter field. -/
def FilterVal.isActive {α : Type} : FilterVal α → Bool
  | .nullv => false
  | .single _ => true
  | .arr vs => !vs.isEmpty

/-- TS `Array.isArray(x) ? x : [x]` — the normalisation the source applies before
using a filter field (only reached when the field is active, i.e. non-null). -/
def FilterVal.toList {α : Type} : FilterVal α → List α
  | .nullv => []
  | .single v => [v]
  | .arr vs => vs

/-- Record `DashboardFilters` (dashboard.model.ts). `partner_type`, `date_from`,
`date_to` are scalar; `none` stands for TS `null`/`undefined`. -/
structure Filters where
  advertiser_id : FilterVal Int
  partner_id : FilterVal Int
  team_member_id : FilterVal Int
  coupon_code : FilterVal String
  partner_type : Option String
  geo : FilterVal String
  date_from : Option String
  date_to : Option String
deriving DecidableEq, Repr

/-- The all-null `DashboardFilters` object (`this.filters = {}`). -/
def Filters.empty : Filters :=
  ⟨.nullv, .nullv, .nullv, .nullv, none, .nullv, none, none⟩

/-- Advertiser dropdown record as built in `loadFilterOptions`. -/
structure Advertiser where
  id : Int
  name : String
  attribution : String
deriving DecidableEq, Repr

/-- Partner dropdown record as built in `loadFilterOptions`. -/
structure Partner where
  id : Int
  name : String
  type : String
deriving DecidableEq, Repr

/-- Coupon dropdown record as built in `loadFilterOptions`:
`partner_id` and `partner_type` are nullable. -/
structure Coupon where
  code : String
  advertiser : String
  advertiser_id : Int
  partner : String
  partner_id : Option Int
  partner_type : Option String
deriving DecidableEq, Repr

/-- The component's unfiltered master lists (`allAdvertisers`, `allPartners`,
`allCoupons`), loaded once by `loadFilterOptions` and never mutated by
`recomputeFilterDropdowns`. -/
structure Catalog where
  allAdvertisers : List Advertiser
  allPartners : List Partner
  allCoupons : List Coupon
deriving DecidableEq, Repr

/-- The three narrowed dropdown lists (`this.advertisers`, `this.partners`,
`this.coupons`) that `recomputeFilterDropdowns` assigns. -/
structure DropdownState where
  advertisers : List Advertiser
  partners : List Partner
  coupons : List Coupon
deriving DecidableEq, Repr

/-! ## recomputeFilterDropdowns (dashboard.component, lines 712-789) -/

/-- Source `hasAdvertiserFilter` (line 714). -/
def hasAdvertiserFilter (f : Filters) : Bool := f.advertiser_id.isActive

/-- Source `hasPartnerFilter` (line 716). -/
def hasPartnerFilter (f : Filters) : Bool := f.partner_id.isActive

/-- Source `hasCouponFilter` (line 718). -/
def hasCouponFilter (f : Filters) : Bool := f.coupon_code.isActive

/-- Source `hasDepartmentFilter` (line 720):
`partner_type != null && partner_type !== ''`. -/
def hasDepartmentFilter (f : Filters) : Bool :=
  match f.partner_type with
  | some s => s ≠ ""
  | none => false

/-- TS truthiness of the nullable numeric `c.partner_id` (`c.partner_id && …`):
`null`/`undefined` and `0` are falsy. -/
def truthyId : Option Int → Bool
  | none => false
  | some p => p ≠ 0

/-- One `if (hasXFilter) { list = list.filter(pred) }` stage. -/
def applyStage (b : Bool) (pred : Coupon → Bool) (cs : List Coupon) : List Coupon :=
  if b then cs.filter pred else cs

/-- Source `c.partner_type === this.filters.partner_type` (compared under the
`hasDepartmentFilter` guard, where `filters.partner_type` is a non-empty
string, so the option equality coincides with TS `===`). -/
def deptPass (f : Filters) (c : Coupon) : Bool :=
  c.partner_type == f.partner_type

/-- Source `c.partner_id && ids.includes(c.partner_id)` for the selected partner ids. -/
def partnerSelPass (f : Filters) (c : Coupon) : Bool :=
  truthyId c.partner_id &&
    (match c.partner_id with
     | some p => f.partner_id.toList.contains p
     | none => false)

/-- Source `ids.includes(c.advertiser_id)` for the selected advertiser ids. -/
def advSelPass (f : Filters) (c : Coupon) : Bool :=
  f.advertiser_id.toList.contains c.advertiser_id

/-- Source `codes.includes(c.code)` for the selected coupon codes. -/
def couponSelPass (f : Filters) (c : Coupon) : Bool :=
  f.coupon_code.toList.contains c.code

/-- Source `couponsForAdvertisers` (lines 731-742): department, then partner, then
coupon stage — the advertiser dimension's own selection is not applied. -/
def couponsForAdvertisers (f : Filters) (cat : Catalog) : List Coupon :=
  applyStage (hasCouponFilter f) (couponSelPass f)
    (applyStage (hasPartnerFilter f) (partnerSelPass f)
      (applyStage (hasDepartmentFilter f) (deptPass f) cat.allCoupons))

/-- Source `couponsForPartners` (lines 751-762): department, then advertiser, then
coupon stage — the partner dimension's own selection is not applied. -/
def couponsForPartners (f : Filters) (cat : Catalog) : List Coupon :=
  applyStage (hasCouponFilter f) (couponSelPass f)
    (applyStage (hasAdvertiserFilter f) (advSelPass f)
      (applyStage (hasDepartmentFilter f) (deptPass f) cat.allCoupons))

/-- Source `couponsForCoupons` (lines 771-782): department, then advertiser, then
partner stage — the coupon dimension's own selection is not applied. -/
def couponsForCoupons (f : Filters) (cat : Catalog) : List Coupon :=
  applyStage (hasPartnerFilter f) (partnerSelPass f)
    (applyStage (hasAdvertiserFilter f) (advSelPass f)
      (applyStage (hasDepartmentFilter f) (deptPass f) cat.allCoupons))

/-- The selected advertiser ids unioned into the derived set (lines 744-747);
empty when the filter is inactive.  The source's `if (id != null)` guard is
the identity here because the array's TS element type is `number`. -/
def selectedAdvertiserIds (f : Filters) : List Int :=
  if hasAdvertiserFilter f then f.advertiser_id.toList else []

/-- The selected partner ids unioned into the derived set (lines 764-767). -/
def selectedPartnerIds (f : Filters) : List Int :=
  if hasPartnerFilter f then f.partner_id.toList else []

/-- The selected coupon codes unioned into the derived set (lines 784-787). -/
def selectedCouponCodes (f : Filters) : List String :=
  if hasCouponFilter f then f.coupon_code.toList else []

/-- The `advertiserIds` set (line 743 + additions), as the list of its members. -/
def advertiserIds (f : Filters) (cat : Catalog) : List Int :=
  (couponsForAdvertisers f cat).map (fun c => c.advertiser_id) ++
    selectedAdvertiserIds f

/-- Source `couponsForPartners.filter(c => c.partner_id)` (line 763) — the coupons
that actually contribute a partner id. -/
def partnerContributors (f : Filters) (cat : Catalog) : List Coupon :=
  (couponsForPartners f cat).filter (fun c => truthyId c.partner_id)

/-- The `partnerIds` set (line 763 + additions), as the list of its members. -/
def partnerIds (f : Filters) (cat : Catalog) : List Int :=
  (partnerContributors f cat).filterMap (fun c => c.partner_id) ++
    selectedPartnerIds f

/-- The `couponCodes` set (line 783 + additions), as the list of its members. -/
def couponCodes (f : Filters) (cat : Catalog) : List String :=
  (couponsForCoupons f cat).map (fun c => c.code) ++ selectedCouponCodes f

/-- Source `this.advertisers = this.allAdvertisers.filter(a => advertiserIds.has(a.id))`. -/
def advertiserOptions (f : Filters) (cat : Catalog) : List Advertiser :=
  cat.allAdvertisers.filter (fun a => (advertiserIds f cat).contains a.id)

/-- Source `this.partners = this.allPartners.filter(p => partnerIds.has(p.id))`. -/
def partnerOptions (f : Filters) (cat : Catalog) : List Partner :=
  cat.allPartners.filter (fun p => (partnerIds f cat).contains p.id)

/-- Source `this.coupons = this.allCoupons.filter(c => couponCodes.has(c.code))`. -/
def couponOptions (f : Filters) (cat : Catalog) : List Coupon :=
  cat.allCoupons.filter (fun c => (couponCodes f cat).contains c.code)

/-- Source `DashboardComponent.recomputeFilterDropdowns` as a pure function from the
filter selection and master catalog to the three dropdown lists. -/
def recomputeFilterDropdowns (f : Filters) (cat : Catalog) : DropdownState :=
  if !hasAdvertiserFilter f && !hasPartnerFilter f && !hasCouponFilter f &&
      !hasDepartmentFilter f then
    ⟨cat.allAdvertisers, cat.allPartners, cat.allCoupons⟩
  else
    ⟨advertiserOptions f cat, partnerOptions f cat, couponOptions f cat⟩

/-! ## CacheService (src/unnamed/part_010, `cache.service.ts`)

The service's two TS `Map`s are modelled as association lists with
first-match lookup; `Map.set` prepends after erasing the key, `Map.delete`
erases the key.  The observable stored in `requests` is identified by the
`Nat` id of the fetch it wraps (`nextOp` counts the fetches ever started, so
it doubles as the fetch-execution counter).  `shareReplay(1)` (no refCount)
never resubscribes its source: once the underlying fetch has errored, the
stored observable replays that error to every later subscriber, which the
model captures by keeping failed op ids in `failedOps` while — exactly as in
the source, whose `tap` has no error handler — leaving both maps untouched. -/

/-- A `CacheEntry<T>`: `{ data, timestamp, ttl }`. -/
structure CacheEntry (V : Type) where
  data : V
  timestamp : Int
  ttl : Int
deriving DecidableEq, Repr

/-- Operation `Map.set k v` on an association list: the key's previous binding is
removed and the new one prepended. -/
def mapSet {V : Type} (k : String) (v : V) (m : List (String × V)) :
    List (String × V) :=
  (k, v) :: m.filter (fun p => !(p.1 == k))

/-- Operation `Map.delete k` on an association list. -/
def mapDelete {V : Type} (k : String) (m : List (String × V)) :
    List (String × V) :=
  m.filter (fun p => !(p.1 == k))

/-- The `CacheService` instance state: `cache` and `requests` maps plus the
op-id supply (`nextOp` = number of fetches executed so far) and the set of
ops whose underlying fetch has errored. -/
structure CacheState (V : Type) where
  cache : List (String × CacheEntry V)
  requests : List (String × Nat)
  nextOp : Nat
  failedOps : List Nat
deriving DecidableEq, Repr

/-- The fresh service state (`new CacheService()`). -/
def CacheState.init (V : Type) : CacheState V := ⟨[], [], 0, []⟩

/-- What a call to `CacheService.get` hands back: a cached value (`of(...)`),
the already-registered in-flight observable, or a newly started fetch. -/
inductive GetOutcome (V : Type) where
  | hit (v : V)
  | joined (op : Nat)
  | started (op : Nat)
deriving DecidableEq, Repr

/-- Source `CacheService.get(key, request, ttl)` evaluated at clock reading `now`
(`Date.now()`):
1. a cached entry with `now - timestamp < ttl` is returned as `hit`;
2. otherwise an in-flight registration is returned as `joined`;
3. otherwise a fresh fetch is started, registered in `requests`, and
   returned as `started`. -/
def cacheGet {V : Type} (key : String) (ttl : Int) (now : Int)
    (s : CacheState V) : GetOutcome V × CacheState V :=
  match (s.cache.lookup key).filter (fun e => now - e.timestamp < e.ttl) with
  | some e => (.hit e.data, s)
  | none =>
    match s.requests.lookup key with
    | some op => (.joined op, s)
    | none =>
      (.started s.nextOp,
       { s with requests := mapSet key s.nextOp s.requests,
                nextOp := s.nextOp + 1 })

/-- Theorem: `get` never mutates the `cache` map: an expired entry stays in place
(the source only skips serving it) and a fresh fetch registers in
`requests` only. -/
theorem cacheGet_keeps_cache {V : Type} (key : String) (ttl now : Int)
    (s : CacheState V) : (cacheGet key ttl now s).2.cache = s.cache := by
  unfold cacheGet
  rcases h : (s.cache.lookup key).filter (fun e => now - e.timestamp < e.ttl)
    with _ | e
  · rcases h2 : s.requests.lookup key with _ | op <;> simp [h, h2]
  · simp [h]

/-- The success `tap` of the piped request (lines 139-147): on a value,
store `{ data, timestamp: Date.now(), ttl }` in `cache` and delete the
`requests` registration for the key. -/
def settleSuccess {V : Type} (key : String) (v : V) (ttl : Int) (now : Int)
    (s : CacheState V) : CacheState V :=
  { s with cache := mapSet key ⟨v, now, ttl⟩ s.cache,
           requests := mapDelete key s.requests }

/-- Settlement of a fetch with an error.  The `tap` passed in
`CacheService.get` has a `next` handler only, so no map is mutated; the
`shareReplay(1)` subject of the registered observable caches the error. -/
def settleFailure {V : Type} (op : Nat) (s : CacheState V) : CacheState V :=
  { s with failedOps := op :: s.failedOps }

/-- Source `CacheService.invalidate(key)`: drop the cache entry and any in-flight
registration (the invalidation subject emission is UI plumbing). -/
def cacheInvalidate {V : Type} (key : String) (s : CacheState V) :
    CacheState V :=
  { s with cache := mapDelete key s.cache, requests := mapDelete key s.requests }

/-! ## DashboardComponent.loadData (lines 833-908)

`loadData` fires the four analytics fetches through `forkJoin`; the piped
`catchError` replaces any batch error by a zeroed fallback object, and the
`subscribe` `next` handler copies the batch into the component fields.  The
handler is embedded as `applyBatch`; `forkJoinBatch` embeds the
forkJoin-plus-catchError composition (forkJoin discards all source values
and errors as soon as any source errors).  `calculateMockTrend` rounds a
`Math.sin`-seeded float; since no claim depends on its value it is passed
in as an abstract `mockTrend : Int → Int` parameter rather than embedded. -/

/-- Record `KPIData.trends`. -/
structure KPITrends where
  orders_change : Int
  sales_change : Int
  revenue_change : Int
  payout_change : Int
  profit_change : Int
deriving DecidableEq, Repr

/-- Record `KPIData` (dashboard.model.ts). -/
structure KPIData where
  total_orders : Int
  total_sales : Int
  total_revenue : Int
  total_payout : Int
  total_profit : Int
  records_count : Int
  trends : Option KPITrends
deriving DecidableEq, Repr

/-- Record `TableRow` (dashboard.model.ts); optional fields are `Option`. -/
structure TableRow where
  date : String
  advertiser_id : Int
  partner_id : Option Int
  campaign : String
  coupon : String
  partner : Option String
  orders : Int
  sales : Int
  revenue : Option Int
  spend : Option Int
  payout : Int
  profit : Option Int
deriving DecidableEq, Repr

/-- Record `PieChartData` (dashboard.model.ts). -/
structure PieChartData where
  campaign : String
  total_revenue : Int
deriving DecidableEq, Repr

/-- Record `GraphData` (dashboard.model.ts). -/
structure GraphData where
  dates : List String
  daily_sales : List Int
  daily_revenue : Option (List Int)
  daily_payout : List Int
  daily_profit : Option (List Int)
deriving DecidableEq, Repr

/-- The `tableData` member of a batch: `{ count, results }` (pagination
links are unused by the handler and omitted). -/
structure TableBatch where
  count : Int
  results : List TableRow
deriving DecidableEq, Repr

/-- The object the `forkJoin`-plus-`catchError` pipe delivers to
`subscribe`'s `next` handler. -/
structure BatchResults where
  kpis : Option KPIData
  tableData : Option TableBatch
  pieChartData : List PieChartData
  graphData : Option GraphData
deriving DecidableEq, Repr

/-- The fallback object returned by `catchError` (lines 840-847):
`{ kpis: null, tableData: { count: 0, results: [] }, pieChartData: [],
graphData: null }`. -/
def errorFallback : BatchResults := ⟨none, some ⟨0, []⟩, [], none⟩

/-- Pipeline `forkJoin({...}).pipe(catchError(...))`: when all four fetches succeed
the combined record is emitted; when any fails, `forkJoin` discards every
source value and errors, and `catchError` maps the error to
`errorFallback`. -/
def forkJoinBatch (kpis : Except Unit KPIData) (table : Except Unit TableBatch)
    (pie : Except Unit (List PieChartData)) (graph : Except Unit GraphData) :
    BatchResults :=
  match kpis, table, pie, graph with
  | .ok k, .ok t, .ok p, .ok g => ⟨some k, some t, p, some g⟩
  | _, _, _, _ => errorFallback

/-- The component fields `loadData`'s `next` handler writes.  The two chart
configurations (`pieChart`, `lineChart`) are rendering artefacts; each is
modelled by the source data it is (re)built from (`buildPieChart`'s mapped
rows, `buildLineChart`'s `GraphData`). -/
structure DashState where
  kpis : Option KPIData
  totalRecords : Int
  tableData : List TableRow
  filteredTableData : List TableRow
  pieChart : Option (List TableRow)
  graphData : Option GraphData
  lineChart : Option GraphData
  showSkeletons : Bool
  loading : Bool
deriving DecidableEq, Repr

/-- The `TableRow` that `loadData` builds from one `PieChartData` item
(lines 880-889). -/
def pieRowOf (item : PieChartData) : TableRow :=
  ⟨"", 0, none, item.campaign, "", none, 0, 0, some item.total_revenue,
   none, 0, none⟩

/-- The start of `loadData` (lines 834-835): `loading = true`,
`showSkeletons = true`. -/
def loadDataStart (s : DashState) : DashState :=
  { s with loading := true, showSkeletons := true }

/-- Handler: `loadData`'s `subscribe` `next` handler (lines 851-899): each panel is
overwritten only when its member of the batch is truthy (non-null, and
non-empty for the pie array); missing KPI trends are filled in via
`calculateMockTrend`, abstracted as `mockTrend`. -/
def applyBatch (mockTrend : Int → Int) (s : DashState) (r : BatchResults) :
    DashState :=
  let s :=
    match r.kpis with
    | some k =>
      let k' :=
        if k.trends = none then
          { k with trends := some ⟨mockTrend k.total_orders,
              mockTrend k.total_sales, mockTrend k.total_revenue,
              mockTrend k.total_payout, mockTrend k.total_profit⟩ }
        else k
      { s with kpis := some k' }
    | none => s
  let s :=
    match r.tableData with
    | some t =>
      { s with totalRecords := t.count, tableData := t.results,
               filteredTableData := t.results }
    | none => s
  let s :=
    if r.pieChartData.length > 0 then
      { s with pieChart := some (r.pieChartData.map pieRowOf) }
    else s
  let s :=
    match r.graphData with
    | some g => { s with graphData := some g, lineChart := some g }
    | none => s
  { s with showSkeletons := false, loading := false }

/-! ## DashboardService.buildCacheKey (src/unnamed/part_012, lines 246-258) -/

/-- TS `Array.isArray(x) ? x.join(',') : (x || '')` for a numeric filter field:
an array is comma-joined, a scalar is kept unless falsy (`0`), null is `''`. -/
def serializeIdField (v : FilterVal Int) : String :=
  match v with
  | .arr vs => String.intercalate "," (vs.map toString)
  | .single n => if n = 0 then "" else toString n
  | .nullv => ""

/-- TS `Array.isArray(x) ? x.join(',') : (x || '')` for a string filter field. -/
def serializeStrField (v : FilterVal String) : String :=
  match v with
  | .arr vs => String.intercalate "," vs
  | .single s => s
  | .nullv => ""

/-- TS `x || ''` for a scalar string field (`''` is falsy, hence unchanged). -/
def serializeOptStr (v : Option String) : String :=
  match v with
  | some s => s
  | none => ""

/-- Source `DashboardService.buildCacheKey(endpoint, filters)`. -/
def buildCacheKey (endpoint : String) (f : Filters) : String :=
  endpoint ++ ":" ++ String.intercalate "|"
    [serializeOptStr f.partner_type,
     serializeIdField f.advertiser_id,
     serializeIdField f.partner_id,
     serializeIdField f.team_member_id,
     serializeStrField f.coupon_code,
     serializeOptStr f.date_from,
     serializeOptStr f.date_to]

/-! ## Helper lemmas -/

/-- A value occurring in a filter field's normalised list means the field is
active (non-null and, if an array, non-empty). -/
theorem FilterVal.isActive_of_mem {α : Type} {v : FilterVal α} {a : α}
    (h : a ∈ v.toList) : v.isActive = true := by
  cases v with
  | nullv => simp [FilterVal.toList] at h
  | single w => rfl
  | arr vs =>
    simp only [FilterVal.isActive, Bool.not_eq_true']
    rcases vs with _ | ⟨w, ws⟩
    · simp [FilterVal.toList] at h
    · rfl

/-- Membership through one conditional filter stage. -/
theorem mem_applyStage {b : Bool} {pred : Coupon → Bool} {cs : List Coupon}
    {c : Coupon} :
    c ∈ applyStage b pred cs ↔ c ∈ cs ∧ (b = true → pred c = true) := by
  cases b <;> simp [applyStage, List.mem_filter]

/-! ## Claim theorems: constraint resolver -/

/-- Claim C3 (confirmed).  With a fully empty selection (no advertiser,
partner, coupon, or department filter active) `recomputeFilterDropdowns`
restores the three dropdown lists to the full unfiltered catalog lists,
order preserved. -/
theorem recompute_empty_selection_restores_catalog (f : Filters)
    (cat : Catalog)
    (ha : hasAdvertiserFilter f = false) (hp : hasPartnerFilter f = false)
    (hc : hasCouponFilter f = false) (hd : hasDepartmentFilter f = false) :
    recomputeFilterDropdowns f cat =
      ⟨cat.allAdvertisers, cat.allPartners, cat.allCoupons⟩ := by
  simp [recomputeFilterDropdowns, ha, hp, hc, hd]

/-- Witness for C3: the all-null filter object on a concrete catalog. -/
theorem recompute_empty_selection_restores_catalog_witness :
    recomputeFilterDropdowns Filters.empty
        ⟨[⟨1, "A", ""⟩], [⟨2, "P", "MB"⟩], [⟨"X", "", 1, "", some 2, some "MB"⟩]⟩ =
      ⟨[⟨1, "A", ""⟩], [⟨2, "P", "MB"⟩], [⟨"X", "", 1, "", some 2, some "MB"⟩]⟩ :=
  recompute_empty_selection_restores_catalog Filters.empty _
    (by decide) (by decide) (by decide) (by decide)

/-- Claim C2 (confirmed).  Each dimension's option list contains every value
the selection itself holds for that dimension, whenever the catalog lists
carry that value at all — even when the value is absent from the set derived
from the other dimensions' constraints. -/
theorem selected_values_remain_options (f : Filters) (cat : Catalog) :
    (∀ i ∈ f.advertiser_id.toList,
      (∃ a ∈ cat.allAdvertisers, a.id = i) →
      ∃ a ∈ (recomputeFilterDropdowns f cat).advertisers, a.id = i) ∧
    (∀ i ∈ f.partner_id.toList,
      (∃ p ∈ cat.allPartners, p.id = i) →
      ∃ p ∈ (recomputeFilterDropdowns f cat).partners, p.id = i) ∧
    (∀ code ∈ f.coupon_code.toList,
      (∃ c ∈ cat.allCoupons, c.code = code) →
      ∃ c ∈ (recomputeFilterDropdowns f cat).coupons, c.code = code) := by
  refine ⟨?_, ?_, ?_⟩
  · rintro i hi ⟨a, ha, rfl⟩
    have hact : hasAdvertiserFilter f = true := FilterVal.isActive_of_mem hi
    refine ⟨a, ?_, rfl⟩
    simp [recomputeFilterDropdowns, hact, advertiserOptions, List.mem_filter,
      advertiserIds, selectedAdvertiserIds]
    exact ⟨ha, Or.inr hi⟩
  · rintro i hi ⟨p, hp, rfl⟩
    have hact : hasPartnerFilter f = true := FilterVal.isActive_of_mem hi
    refine ⟨p, ?_, rfl⟩
    simp [recomputeFilterDropdowns, hact, partnerOptions, List.mem_filter,
      partnerIds, selectedPartnerIds]
    exact ⟨hp, Or.inr hi⟩
  · rintro code hcode ⟨c, hcmem, rfl⟩
    have hact : hasCouponFilter f = true := FilterVal.isActive_of_mem hcode
    refine ⟨c, ?_, rfl⟩
    simp [recomputeFilterDropdowns, hact, couponOptions, List.mem_filter,
      couponCodes, selectedCouponCodes]
    exact ⟨hcmem, Or.inr hcode⟩

/-- Witness for C2: advertiser 5 is selected while no coupon belongs to it,
so it is absent from the derived set, yet it survives in the options. -/
theorem selected_values_remain_options_witness :
    ∃ a ∈ (recomputeFilterDropdowns
        ⟨.arr [5], .nullv, .nullv, .nullv, none, .nullv, none, none⟩
        ⟨[⟨5, "A", ""⟩], [], [⟨"X", "", 1, "", none, none⟩]⟩).advertisers,
      a.id = 5 :=
  (selected_values_remain_options
      ⟨.arr [5], .nullv, .nullv, .nullv, none, .nullv, none, none⟩
      ⟨[⟨5, "A", ""⟩], [], [⟨"X", "", 1, "", none, none⟩]⟩).1
    5 (by decide) ⟨⟨5, "A", ""⟩, by decide, by decide⟩

/-- Claim C1 (counterexample).  Catalog: advertisers 1 and 2, each owning a
coupon with the same code `"X"`.  Selecting advertiser 1 leaves only
advertiser 1's coupon in the derived subset, yet the coupon option list
still shows advertiser 2's same-coded coupon: the compound key
`(code, advertiser_id)` is not the unit of identity — the option list is
keyed by `code` alone, so the two coupons do not appear or disappear
independently. -/
theorem coupon_compound_key_counterexample :
    couponsForCoupons
        ⟨.arr [1], .nullv, .nullv, .nullv, none, .nullv, none, none⟩
        ⟨[⟨1, "A1", ""⟩, ⟨2, "A2", ""⟩], [],
         [⟨"X", "", 1, "", none, none⟩, ⟨"X", "", 2, "", none, none⟩]⟩ =
      [⟨"X", "", 1, "", none, none⟩] ∧
    (recomputeFilterDropdowns
        ⟨.arr [1], .nullv, .nullv, .nullv, none, .nullv, none, none⟩
        ⟨[⟨1, "A1", ""⟩, ⟨2, "A2", ""⟩], [],
         [⟨"X", "", 1, "", none, none⟩, ⟨"X", "", 2, "", none, none⟩]⟩).coupons =
      [⟨"X", "", 1, "", none, none⟩, ⟨"X", "", 2, "", none, none⟩] := by
  constructor <;> rfl

/-- Claim C1 (amended).  Coupon option identity is the code alone: for any
selection and catalog, two catalog coupons sharing a code either both appear
in the computed coupon option list or both do not — same-coded coupons of
different advertisers are merged, never independent. -/
theorem coupon_options_merge_same_code (f : Filters) (cat : Catalog)
    (c₁ c₂ : Coupon) (h₁ : c₁ ∈ cat.allCoupons) (h₂ : c₂ ∈ cat.allCoupons)
    (hcode : c₁.code = c₂.code) :
    c₁ ∈ (recomputeFilterDropdowns f cat).coupons ↔
      c₂ ∈ (recomputeFilterDropdowns f cat).coupons := by
  unfold recomputeFilterDropdowns
  split
  · simpa using ⟨fun _ => h₂, fun _ => h₁⟩
  · simp [couponOptions, List.mem_filter, h₁, h₂, hcode]

/-- Witness for the amended C1: advertiser 2's same-coded coupon is carried
into the options by advertiser 1's coupon. -/
theorem coupon_options_merge_same_code_witness :
    (⟨"X", "", 1, "", none, none⟩ : Coupon) ∈
        (recomputeFilterDropdowns
          ⟨.arr [1], .nullv, .nullv, .nullv, none, .nullv, none, none⟩
          ⟨[⟨1, "A1", ""⟩, ⟨2, "A2", ""⟩], [],
           [⟨"X", "", 1, "", none, none⟩, ⟨"X", "", 2, "", none, none⟩]⟩).coupons ↔
      (⟨"X", "", 2, "", none, none⟩ : Coupon) ∈
        (recomputeFilterDropdowns
          ⟨.arr [1], .nullv, .nullv, .nullv, none, .nullv, none, none⟩
          ⟨[⟨1, "A1", ""⟩, ⟨2, "A2", ""⟩], [],
           [⟨"X", "", 1, "", none, none⟩, ⟨"X", "", 2, "", none, none⟩]⟩).coupons :=
  coupon_options_merge_same_code _ _ _ _ (by decide) (by decide) (by decide)

/-- Claim C4 (confirmed).  A coupon whose `partner_id` is null never
contributes to partner-option derivation (for every selection), while — as
long as the selection does not constrain partners — it participates in
advertiser-option and coupon-option derivation exactly through the
remaining filters, like any other coupon. -/
theorem null_partner_coupon_derivation (f : Filters) (cat : Catalog)
    (c : Coupon) (hnull : c.partner_id = none) :
    c ∉ partnerContributors f cat ∧
    (hasPartnerFilter f = false →
      ((c ∈ couponsForAdvertisers f cat ↔
          c ∈ cat.allCoupons ∧
          (hasDepartmentFilter f = true → deptPass f c = true) ∧
          (hasCouponFilter f = true → couponSelPass f c = true)) ∧
       (c ∈ couponsForCoupons f cat ↔
          c ∈ cat.allCoupons ∧
          (hasDepartmentFilter f = true → deptPass f c = true) ∧
          (hasAdvertiserFilter f = true → advSelPass f c = true)))) := by
  refine ⟨?_, fun hpf => ⟨?_, ?_⟩⟩
  · simp [partnerContributors, List.mem_filter, truthyId, hnull]
  · simp [couponsForAdvertisers, mem_applyStage, hpf, and_assoc]
  · simp [couponsForCoupons, mem_applyStage, hpf, and_assoc]

/-- Witness for C4: with a department and a coupon filter active, a
null-partner coupon passing both is counted for advertiser derivation and
contributes nothing to partner derivation. -/
theorem null_partner_coupon_derivation_witness :
    (⟨"X", "", 1, "", none, some "MB"⟩ : Coupon) ∉
        partnerContributors
          ⟨.nullv, .nullv, .nullv, .arr ["X"], some "MB", .nullv, none, none⟩
          ⟨[⟨1, "A1", ""⟩], [], [⟨"X", "", 1, "", none, some "MB"⟩]⟩ ∧
    (⟨"X", "", 1, "", none, some "MB"⟩ : Coupon) ∈
        couponsForAdvertisers
          ⟨.nullv, .nullv, .nullv, .arr ["X"], some "MB", .nullv, none, none⟩
          ⟨[⟨1, "A1", ""⟩], [], [⟨"X", "", 1, "", none, some "MB"⟩]⟩ :=
  ⟨(null_partner_coupon_derivation _ _ _ (by decide)).1,
   (((null_partner_coupon_derivation
        ⟨.nullv, .nullv, .nullv, .arr ["X"], some "MB", .nullv, none, none⟩
        ⟨[⟨1, "A1", ""⟩], [], [⟨"X", "", 1, "", none, some "MB"⟩]⟩
        ⟨"X", "", 1, "", none, some "MB"⟩ (by decide)).2
      (by decide)).1).mpr ⟨by decide, by decide, by decide⟩⟩

/-- Lookup: `Map.set` followed by lookup of the same key. -/
theorem lookup_mapSet_self {V : Type} (k : String) (v : V)
    (m : List (String × V)) : (mapSet k v m).lookup k = some v := by
  simp [mapSet, List.lookup]

/-! ## Claim theorems: CacheService -/

/-- Claim C5 (confirmed).  With no cached entry and no in-flight operation for
a key, two consecutive `get` calls for it (neither settled in between)
execute the fetch exactly once: the first registers and returns a new
operation, the second returns that same pending operation and leaves the
whole state — in particular the fetch counter and the at-most-one in-flight
registration — untouched. -/
theorem cache_get_dedups_in_flight {V : Type} (s : CacheState V)
    (k : String) (ttl₁ ttl₂ now₁ now₂ : Int)
    (hc : s.cache.lookup k = none) (hr : s.requests.lookup k = none) :
    (cacheGet k ttl₁ now₁ s).1 = .started s.nextOp ∧
    (cacheGet (V := V) k ttl₂ now₂ (cacheGet k ttl₁ now₁ s).2).1 =
      .joined s.nextOp ∧
    (cacheGet (V := V) k ttl₂ now₂ (cacheGet k ttl₁ now₁ s).2).2 =
      (cacheGet k ttl₁ now₁ s).2 ∧
    (cacheGet k ttl₁ now₁ s).2.nextOp = s.nextOp + 1 ∧
    (cacheGet k ttl₁ now₁ s).2.requests.lookup k = some s.nextOp := by
  have h1 : cacheGet k ttl₁ now₁ s =
      (.started s.nextOp,
       ⟨s.cache, mapSet k s.nextOp s.requests, s.nextOp + 1, s.failedOps⟩) := by
    simp [cacheGet, hc, hr]
  have h2 : cacheGet (V := V) k ttl₂ now₂
      ⟨s.cache, mapSet k s.nextOp s.requests, s.nextOp + 1, s.failedOps⟩ =
      (.joined s.nextOp,
       ⟨s.cache, mapSet k s.nextOp s.requests, s.nextOp + 1, s.failedOps⟩) := by
    simp [cacheGet, hc, lookup_mapSet_self]
  simp [h1, h2, lookup_mapSet_self]

/-- Witness for C5 at a concrete key and fresh state. -/
theorem cache_get_dedups_in_flight_witness :
    (cacheGet (V := Int) "kpis:a" 30000 100 (CacheState.init Int)).1 =
      .started 0 ∧
    (cacheGet (V := Int) "kpis:a" 30000 150
        (cacheGet (V := Int) "kpis:a" 30000 100 (CacheState.init Int)).2).1 =
      .joined 0 ∧
    (cacheGet (V := Int) "kpis:a" 30000 150
        (cacheGet (V := Int) "kpis:a" 30000 100 (CacheState.init Int)).2).2 =
      (cacheGet (V := Int) "kpis:a" 30000 100 (CacheState.init Int)).2 :=
  have h := cache_get_dedups_in_flight (CacheState.init Int) "kpis:a"
    30000 30000 100 150 (by decide) (by decide)
  ⟨h.1, h.2.1, h.2.2.1⟩

/-- Claim C6 (confirmed).  After an entry `{v, t, ttl}` is stored for a key,
every `get` strictly before `t + ttl` returns the cached value and starts no
fetch (the state is unchanged), while a `get` at or after `t + ttl` — with
no operation in flight — does not serve the entry and starts exactly one
re-fetch. -/
theorem cache_entry_ttl_expiry {V : Type} (s : CacheState V) (k : String)
    (v : V) (t ttl ttl' now : Int)
    (hc : s.cache.lookup k = some ⟨v, t, ttl⟩) :
    (now < t + ttl → cacheGet k ttl' now s = (.hit v, s)) ∧
    (t + ttl ≤ now → s.requests.lookup k = none →
      (cacheGet k ttl' now s).1 = .started s.nextOp ∧
      (cacheGet k ttl' now s).2.nextOp = s.nextOp + 1 ∧
      (cacheGet k ttl' now s).2.requests.lookup k = some s.nextOp) := by
  constructor
  · intro h
    have hb : decide (now - t < ttl) = true := decide_eq_true (by omega)
    unfold cacheGet
    rw [hc]
    simp [Option.filter, hb]
  · intro h hr
    have hb : decide (now - t < ttl) = false := decide_eq_false (by omega)
    unfold cacheGet
    rw [hc]
    simp [Option.filter, hb, hr, lookup_mapSet_self]

/-- Witness for C6: an entry written at t = 0 with ttl = 30000 is served at
time 29999 and re-fetched at time 30000. -/
theorem cache_entry_ttl_expiry_witness :
    cacheGet "k" 30000 29999 (⟨[("k", ⟨7, 0, 30000⟩)], [], 3, []⟩ :
        CacheState Int) =
      (.hit 7, ⟨[("k", ⟨7, 0, 30000⟩)], [], 3, []⟩) ∧
    (cacheGet "k" 30000 30000 (⟨[("k", ⟨7, 0, 30000⟩)], [], 3, []⟩ :
        CacheState Int)).1 = .started 3 :=
  have h := cache_entry_ttl_expiry
    (⟨[("k", ⟨7, 0, 30000⟩)], [], 3, []⟩ : CacheState Int) "k" 7 0 30000
    30000 29999 (by decide)
  have h' := cache_entry_ttl_expiry
    (⟨[("k", ⟨7, 0, 30000⟩)], [], 3, []⟩ : CacheState Int) "k" 7 0 30000
    30000 30000 (by decide)
  ⟨h.1 (by decide), (h'.2 (by decide) (by decide)).1⟩

/-- Claim C7 (the code violates the claim).  Concrete run: a fresh `get`
starts fetch 0; the fetch fails; no cache entry is stored (that half of the
claim holds), but — because the `tap` in `CacheService.get` has no error
handler — the in-flight registration for the key is *not* cleared, and a
subsequent `get` joins the already-failed operation instead of retrying:
the fetch counter stays at 1. -/
theorem cache_failure_leaves_in_flight :
    (cacheGet "k" 30000 0 (CacheState.init Int)).1 = .started 0 ∧
    (settleFailure 0 (cacheGet "k" 30000 0 (CacheState.init Int)).2).cache =
      [] ∧
    (settleFailure 0
        (cacheGet "k" 30000 0 (CacheState.init Int)).2).requests.lookup "k" =
      some 0 ∧
    (cacheGet "k" 30000 500
        (settleFailure 0 (cacheGet "k" 30000 0 (CacheState.init Int)).2)).1 =
      .joined 0 ∧
    (cacheGet "k" 30000 500
        (settleFailure 0
          (cacheGet "k" 30000 0 (CacheState.init Int)).2)).2.nextOp = 1 ∧
    0 ∈ (settleFailure 0
        (cacheGet "k" 30000 0 (CacheState.init Int)).2).failedOps := by
  refine ⟨rfl, rfl, rfl, rfl, rfl, ?_⟩
  simp [settleFailure, cacheGet, CacheState.init, mapSet]

/-! ## Claim theorems: loadData batches -/

/-- Claim C8 (counterexample).  No sequence numbers exist in `loadData`: its
`subscribe` handler applies whatever batch settles, so a batch dispatched
earlier (for the KPI payload `⟨1,…⟩`) that resolves after a later batch
(payload `⟨2,…⟩`) has been applied simply overwrites the later result. -/
theorem stale_batch_overwrites_newer :
    (applyBatch (fun _ => 0)
        (applyBatch (fun _ => 0)
          ⟨none, 0, [], [], none, none, none, true, true⟩
          ⟨some ⟨2, 2, 2, 2, 2, 2, some ⟨0, 0, 0, 0, 0⟩⟩, some ⟨2, []⟩, [],
           none⟩)
        ⟨some ⟨1, 1, 1, 1, 1, 1, some ⟨0, 0, 0, 0, 0⟩⟩, some ⟨1, []⟩, [],
         none⟩).kpis =
      some ⟨1, 1, 1, 1, 1, 1, some ⟨0, 0, 0, 0, 0⟩⟩ ∧
    (⟨1, 1, 1, 1, 1, 1, some ⟨0, 0, 0, 0, 0⟩⟩ : KPIData) ≠
      ⟨2, 2, 2, 2, 2, 2, some ⟨0, 0, 0, 0, 0⟩⟩ := by
  constructor <;> decide

/-- Claim C8 (amended).  The `subscribe` handler of `loadData` applies a fully
populated batch unconditionally — last-settled-wins: the resulting component
state is determined by that batch alone, with no sequence number consulted
and no staleness discard. -/
theorem apply_batch_last_settled_wins (mt : Int → Int) (s : DashState)
    (r : BatchResults) (k : KPIData) (tr : KPITrends) (tb : TableBatch)
    (g : GraphData) (hk : r.kpis = some k) (htr : k.trends = some tr)
    (htb : r.tableData = some tb) (hp : r.pieChartData ≠ [])
    (hg : r.graphData = some g) :
    applyBatch mt s r =
      ⟨some k, tb.count, tb.results, tb.results,
       some (r.pieChartData.map pieRowOf), some g, some g, false, false⟩ := by
  have hlen : 0 < r.pieChartData.length := List.length_pos.mpr hp
  simp [applyBatch, hk, htr, htb, hg, hlen]

/-- Witness for the amended C8: a concrete full batch overwrites a concrete
previously applied state wholesale. -/
theorem apply_batch_last_settled_wins_witness :
    applyBatch (fun _ => 0)
        ⟨some ⟨2, 2, 2, 2, 2, 2, some ⟨0, 0, 0, 0, 0⟩⟩, 2, [], [], none,
         none, none, false, false⟩
        ⟨some ⟨1, 1, 1, 1, 1, 1, some ⟨0, 0, 0, 0, 0⟩⟩, some ⟨1, []⟩,
         [⟨"camp", 9⟩], some ⟨["d1"], [4], none, [5], none⟩⟩ =
      ⟨some ⟨1, 1, 1, 1, 1, 1, some ⟨0, 0, 0, 0, 0⟩⟩, 1, [], [],
       some [⟨"", 0, none, "camp", "", none, 0, 0, some 9, none, 0, none⟩],
       some ⟨["d1"], [4], none, [5], none⟩,
       some ⟨["d1"], [4], none, [5], none⟩, false, false⟩ :=
  apply_batch_last_settled_wins (fun _ => 0) _ _
    ⟨1, 1, 1, 1, 1, 1, some ⟨0, 0, 0, 0, 0⟩⟩ ⟨0, 0, 0, 0, 0⟩ ⟨1, []⟩
    ⟨["d1"], [4], none, [5], none⟩ rfl rfl rfl (by decide) rfl

/-- Claim C9 (counterexample).  A batch failure does not revert the view to
an empty/zeroed snapshot: applying the `catchError` fallback on top of a
state holding earlier KPI, pie and graph data zeroes only the table while
the KPI, pie-chart and graph panels keep their previous (stale) data. -/
theorem failed_batch_keeps_stale_panels :
    applyBatch (fun _ => 0)
        ⟨some ⟨5, 5, 5, 5, 5, 5, none⟩, 3,
         [⟨"d", 1, none, "c", "x", none, 1, 1, none, none, 1, none⟩],
         [⟨"d", 1, none, "c", "x", none, 1, 1, none, none, 1, none⟩],
         some [⟨"", 0, none, "camp", "", none, 0, 0, some 9, none, 0, none⟩],
         some ⟨["d1"], [4], none, [5], none⟩,
         some ⟨["d1"], [4], none, [5], none⟩, false, false⟩
        errorFallback =
      ⟨some ⟨5, 5, 5, 5, 5, 5, none⟩, 0, [], [],
       some [⟨"", 0, none, "camp", "", none, 0, 0, some 9, none, 0, none⟩],
       some ⟨["d1"], [4], none, [5], none⟩,
       some ⟨["d1"], [4], none, [5], none⟩, false, false⟩ ∧
    (applyBatch (fun _ => 0)
        ⟨some ⟨5, 5, 5, 5, 5, 5, none⟩, 3,
         [⟨"d", 1, none, "c", "x", none, 1, 1, none, none, 1, none⟩],
         [⟨"d", 1, none, "c", "x", none, 1, 1, none, none, 1, none⟩],
         some [⟨"", 0, none, "camp", "", none, 0, 0, some 9, none, 0, none⟩],
         some ⟨["d1"], [4], none, [5], none⟩,
         some ⟨["d1"], [4], none, [5], none⟩, false, false⟩
        errorFallback).kpis ≠ none := by
  constructor <;> decide

/-- Claim C9 (amended).  When any one of the four composed fetches fails,
`forkJoin` discards every successful result and `catchError` substitutes the
zeroed fallback batch; applying it empties the table (count 0, no rows) and
clears the loading flags, while every other panel retains its previous
state — so no data from the fetches that succeeded is applied, but the view
does not revert to a fully empty snapshot either. -/
theorem batch_failure_discards_successes (mt : Int → Int) (s : DashState)
    (eK : Except Unit KPIData) (eT : Except Unit TableBatch)
    (eP : Except Unit (List PieChartData)) (eG : Except Unit GraphData)
    (h : eK = .error () ∨ eT = .error () ∨ eP = .error () ∨ eG = .error ()) :
    applyBatch mt s (forkJoinBatch eK eT eP eG) =
      { s with totalRecords := 0, tableData := [], filteredTableData := [],
               showSkeletons := false, loading := false } := by
  have hf : forkJoinBatch eK eT eP eG = errorFallback := by
    cases eK <;> cases eT <;> cases eP <;> cases eG <;>
      simp_all [forkJoinBatch]
  rw [hf]
  rfl

/-- Witness for the amended C9: the KPI fetch fails while the three others
succeeded; all four payloads are discarded and only the table is zeroed. -/
theorem batch_failure_discards_successes_witness :
    applyBatch (fun _ => 0)
        ⟨some ⟨5, 5, 5, 5, 5, 5, none⟩, 3, [], [], none, none, none, false,
         false⟩
        (forkJoinBatch (.error ())
          (.ok ⟨4, [⟨"d", 1, none, "c", "x", none, 1, 1, none, none, 1,
            none⟩]⟩)
          (.ok [⟨"camp", 9⟩]) (.ok ⟨["d1"], [4], none, [5], none⟩)) =
      ⟨some ⟨5, 5, 5, 5, 5, 5, none⟩, 0, [], [], none, none, none, false,
       false⟩ :=
  batch_failure_discards_successes (fun _ => 0) _ _ _ _ _ (Or.inl rfl)

/-! ## Claim theorems: buildCacheKey -/

/-- Claim C10 (counterexample).  Two selections whose advertiser arrays hold
the same ids in different orders — equal as sets — produce different cache
keys: `buildCacheKey` serializes arrays in their given order without
canonicalization. -/
theorem cache_key_not_order_independent :
    List.Perm
        (FilterVal.toList (FilterVal.arr ([1, 2] : List Int)))
        (FilterVal.toList (FilterVal.arr ([2, 1] : List Int))) ∧
    buildCacheKey "kpis"
        ⟨.arr [1, 2], .nullv, .nullv, .nullv, none, .nullv, none, none⟩ ≠
      buildCacheKey "kpis"
        ⟨.arr [2, 1], .nullv, .nullv, .nullv, none, .nullv, none, none⟩ := by
  constructor
  · decide
  · decide

/-- Claim C10 (amended).  `buildCacheKey` is deterministic in the fields as
given: selections whose scalar fields agree and whose multi-valued id arrays
are presented in canonical (sorted) order and are equal as sets produce the
same key.  Without that external canonicalization, array order changes the
key. -/
theorem cache_key_canonical_order (e : String) (f1 f2 : Filters)
    (hpt : f1.partner_type = f2.partner_type)
    (hdf : f1.date_from = f2.date_from) (hdt : f1.date_to = f2.date_to)
    (htm : f1.team_member_id = f2.team_member_id)
    (hcc : f1.coupon_code = f2.coupon_code)
    (l1 l2 m1 m2 : List Int)
    (ha1 : f1.advertiser_id = .arr l1) (ha2 : f2.advertiser_id = .arr l2)
    (hla : List.Perm l1 l2) (hs1 : List.Sorted (· ≤ ·) l1)
    (hs2 : List.Sorted (· ≤ ·) l2)
    (hp1 : f1.partner_id = .arr m1) (hp2 : f2.partner_id = .arr m2)
    (hlp : List.Perm m1 m2) (ht1 : List.Sorted (· ≤ ·) m1)
    (ht2 : List.Sorted (· ≤ ·) m2) :
    buildCacheKey e f1 = buildCacheKey e f2 := by
  have h1 : l1 = l2 := List.eq_of_perm_of_sorted hla hs1 hs2
  have h2 : m1 = m2 := List.eq_of_perm_of_sorted hlp ht1 ht2
  simp [buildCacheKey, hpt, hdf, hdt, htm, hcc, ha1, ha2, hp1, hp2, h1, h2]

/-- Witness for the amended C10 at concrete sorted selections. -/
theorem cache_key_canonical_order_witness :
    buildCacheKey "kpis"
        ⟨.arr [1, 2], .arr [7], .nullv, .arr ["X"], some "MB", .nullv,
         none, none⟩ =
      buildCacheKey "kpis"
        ⟨.arr [1, 2], .arr [7], .nullv, .arr ["X"], some "MB", .nullv,
         none, none⟩ :=
  cache_key_canonical_order "kpis" _ _ rfl rfl rfl rfl rfl
    [1, 2] [1, 2] [7] [7] rfl rfl (by decide) (by decide) (by decide)
    rfl rfl (by decide) (by decide) (by decide)

end Growthnity
